import Mathlib

/-!
Verification development for the snowpipe-streaming Rust client.

Shallow embedding of the correctness-critical parts of the crate:
the error taxonomy (`src/errors.rs`), the retry plan and coordinator
(`src/retry/plan.rs`, `src/retry/coordinator.rs`), the channel ingestion
state machine (`src/channel.rs`), the token envelope / refresh guard
(`src/token/envelope.rs`, `src/token/guard.rs`, `src/token/policy.rs`)
and the single-retry authenticated dispatch (`src/client/impls.rs`).

Conventions of the embedding:
* machine integers (`u64`, `usize`, `u8`) become `Nat`;
* `std::time::Duration` and float-scaled delays become `ℚ`
  (milliseconds), which idealises the `f32`/`f64` arithmetic of the
  source exactly on the dyadic inputs used in concrete evaluations;
* `SystemTime` becomes `Nat` seconds since the epoch;
* network transports are oracles: each modelled operation takes the
  list (or stream) of responses the server would produce and returns,
  alongside its result, the requests it issued, so that claims about
  "no network call" or "exactly one retry" are statements about the
  returned request trace;
* fallible Rust code returns `Except Error`; a Rust `panic!` or
  `expect` becomes `Option.none`.
-/

deriving instance DecidableEq for Except

namespace SnowpipeStreaming

/-- Error taxonomy from `src/errors.rs`.  Payloads that are opaque in the
claims (io errors, reqwest errors, serde errors, process output) are
carried as strings; `Http` and `IngestHostDiscovery` carry the numeric
HTTP status code and the body; `Timeout` carries the duration in
milliseconds. -/
inductive Error where
  | Io (msg : String)
  | Json (msg : String)
  | Http (status : Nat) (body : String)
  | Reqwest (msg : String)
  | IngestHostDiscovery (status : Nat) (body : String)
  | DataTooLarge (actual maxSize : Nat)
  | JwtError (msg : String)
  | Config (msg : String)
  | Timeout (millis : ℚ)
  | Key (msg : String)
  | JwtSign (msg : String)
  | Utf8Error (msg : String)
  | Auth (msg : String)
deriving DecidableEq

/-- Jitter strategies from `src/retry/plan.rs`. -/
inductive JitterStrategy where
  | Full
  | Decorrelated
deriving DecidableEq

/-- `RetryPlan` from `src/retry/plan.rs`; delays in milliseconds as `ℚ`,
`max_attempts : u8` as `Nat`, `multiplier : f32` as `ℚ`. -/
structure RetryPlan where
  max_attempts : Nat
  initial_delay : ℚ
  multiplier : ℚ
  max_delay : ℚ
  jitter : JitterStrategy
deriving DecidableEq

/-- `RetryPlan::default_plan` from `src/retry/plan.rs` (200 ms initial,
multiplier 1.8, max delay 5 s, Full jitter, 4 attempts). -/
def RetryPlan.default_plan : RetryPlan :=
  { max_attempts := 4
    initial_delay := 200
    multiplier := 9/5
    max_delay := 5000
    jitter := JitterStrategy.Full }

/-- `RetryPlan::delay_for_attempt` from `src/retry/plan.rs`.  The rng
draw is passed in as the jitter factor `j` (the source draws it from
`Uniform(0,1)` for Full and `Uniform(0.5,1.5)` for Decorrelated).
Mirrors the source exactly: attempts `<= 1` return `initial_delay`;
otherwise the exponent applied to the multiplier is `attempt - 1`, the
result is capped at `max_delay` and then scaled by the jitter factor. -/
def RetryPlan.delay_for_attempt (p : RetryPlan) (attempt : Nat) (j : ℚ) : ℚ :=
  if attempt ≤ 1 then
    p.initial_delay
  else
    min (p.initial_delay * p.multiplier ^ (attempt - 1)) p.max_delay * j

/-- Modelled from the spec's words (for comparison with
`RetryPlan.delay_for_attempt`): "Backoff delay for attempt n (n≥2):
`initial_delay * multiplier^(n-2)`, capped at `max_delay`, then scaled
by a jitter factor. Attempt 1 has zero added delay." -/
def spec_delay_for_attempt (p : RetryPlan) (attempt : Nat) (j : ℚ) : ℚ :=
  if attempt ≤ 1 then
    0
  else
    min (p.initial_delay * p.multiplier ^ (attempt - 2)) p.max_delay * j

/-- `RetryCoordinator::is_retriable` from `src/retry/coordinator.rs`:
matches `Http`, `Reqwest`, `IngestHostDiscovery` and `Timeout`
regardless of their payloads. -/
def is_retriable (e : Error) : Bool :=
  match e with
  | Error.Http _ _ => true
  | Error.Reqwest _ => true
  | Error.IngestHostDiscovery _ _ => true
  | Error.Timeout _ => true
  | _ => false

/-- Modelled from the spec's words (for comparison with `is_retriable`):
"retriable (network/transport failure, 5xx-equivalent HTTP status,
host-discovery failure, timeout) or fatal (everything else, including
401/403 auth failures and 4xx-equivalent validation failures)". -/
def spec_retriable (e : Error) : Bool :=
  match e with
  | Error.Http status _ => 500 ≤ status && status < 600
  | Error.Reqwest _ => true
  | Error.IngestHostDiscovery _ _ => true
  | Error.Timeout _ => true
  | _ => false

/-- Loop body of `RetryCoordinator::execute` from
`src/retry/coordinator.rs`.  The operation closure is modelled by the
oracle list `results` giving the outcome of each attempt in order; the
per-sleep rng draws are the oracle `jitters`, indexed by the attempt
being scheduled.  Returns the final result together with the attempt
count that the `RetryOutcome` would record, and the list of backoff
sleeps performed (in order).  An empty oracle is a model artifact and
yields a `Config` error that no theorem relies on. -/
def executeGo {T : Type} (p : RetryPlan) (jitters : Nat → ℚ) :
    Nat → List (Except Error T) → Except Error (T × Nat) × List ℚ
  | _, [] => (Except.error (Error.Config "attempt oracle exhausted"), [])
  | attempt, r :: rest =>
    match r with
    | Except.ok v => (Except.ok (v, attempt), [])
    | Except.error e =>
      if p.max_attempts ≤ attempt ∨ is_retriable e = false then
        (Except.error e, [])
      else
        let d := p.delay_for_attempt (attempt + 1) (jitters (attempt + 1))
        let rec_result := executeGo p jitters (attempt + 1) rest
        (rec_result.1, d :: rec_result.2)

/-- `RetryCoordinator::execute` from `src/retry/coordinator.rs`:
attempt numbering starts at 1, no sleep precedes the first attempt. -/
def execute {T : Type} (p : RetryPlan) (jitters : Nat → ℚ)
    (results : List (Except Error T)) : Except Error (T × Nat) × List ℚ :=
  executeGo p jitters 1 results

/-! ## Channel ingestion state machine (`src/channel.rs`) -/

/-- `MAX_REQUEST_SIZE` from `src/channel.rs` (16 MiB). -/
def MAX_REQUEST_SIZE : Nat := 16 * 1024 * 1024

/-- The byte length of a string, as Rust's `String::len` (UTF-8 byte
count) computes it. -/
def byteLen (s : String) : Nat :=
  (s.data.map Char.utf8Size).sum

/-- `AppendRowsResponse` from `src/types.rs`. -/
structure AppendRowsResponse where
  next_continuation_token : String
deriving DecidableEq

/-- The channel-status payload of `OpenChannelResponse` /
bulk-channel-status from `src/types.rs`; only the field the channel
state machine inspects is modelled. -/
structure ChannelStatus where
  last_committed_offset_token : Option String
deriving DecidableEq

/-- `OpenChannelResponse` from `src/types.rs`. -/
structure OpenChannelResponse where
  next_continuation_token : String
  channel_status : ChannelStatus
deriving DecidableEq

/-- The mutable fields of `StreamingIngestChannel` from
`src/channel.rs` (the embedded client handle carries no
channel-protocol state relevant to the claims). -/
structure ChannelState where
  channel_name : String
  continuation_token : String
  last_committed_offset_token : Nat
  last_pushed_offset_token : Nat
deriving DecidableEq

/-- One row-append POST as issued by `append_rows_call`
(`src/channel.rs`): the query parameters `continuationToken` and
`offsetToken` and the newline-delimited body. -/
structure RowPost where
  continuationToken : String
  offsetToken : Nat
  body : String
deriving DecidableEq

/-- Digit-accumulation loop of `parse_u64`. -/
def parse_u64_go : List Char → Nat → Option Nat
  | [], acc => some acc
  | c :: cs, acc =>
    if c.isDigit then parse_u64_go cs (acc * 10 + (c.toNat - '0'.toNat))
    else none

/-- Rust's `str::parse::<u64>()` as the channel code uses it on offset
tokens: a non-empty all-digit string parses to its decimal value,
anything else fails (numeric overflow of `u64` is not modelled). -/
def parse_u64 (s : String) : Option Nat :=
  match s.data with
  | [] => none
  | ds => parse_u64_go ds 0

/-- `StreamingIngestChannel::from_response` from `src/channel.rs`:
parses `last_committed_offset_token` (defaulting to `"0"`) and seeds
both offset counters with it; an unparseable token panics in the
source, modelled as `none`. -/
def from_response (resp : OpenChannelResponse) (channel_name : String) :
    Option ChannelState :=
  match parse_u64 (resp.channel_status.last_committed_offset_token.getD "0") with
  | some token =>
    some { channel_name := channel_name
           continuation_token := resp.next_continuation_token
           last_committed_offset_token := token
           last_pushed_offset_token := token }
  | none => none

/-- `StreamingIngestChannel::append_rows_call` from `src/channel.rs`.
The transport is the oracle `resp` (what the POST would return).
Returns the updated state (or error) together with the list of POSTs
actually issued, so that "no network call" is the statement that the
list is empty.  Mirrors the source: the size guard fires before the
POST; on success the pushed offset becomes `last_pushed + 1` and the
continuation token is replaced by the response's. -/
def append_rows_call (st : ChannelState) (data : String)
    (resp : Except Error AppendRowsResponse) :
    Except Error ChannelState × List RowPost :=
  if byteLen data > MAX_REQUEST_SIZE then
    (Except.error (Error.DataTooLarge (byteLen data) MAX_REQUEST_SIZE), [])
  else
    let offset := st.last_pushed_offset_token + 1
    let post : RowPost :=
      { continuationToken := st.continuation_token
        offsetToken := offset
        body := data }
    match resp with
    | Except.error e => (Except.error e, [post])
    | Except.ok r =>
      (Except.ok { st with
                    last_pushed_offset_token := offset
                    continuation_token := r.next_continuation_token },
       [post])

/-- Rust's `slice::chunks n` (as used by `append_rows`), written with a
list-length fuel so that it is structural; callers always pass
`chunk_size ≥ 1`, for which the fuel `l.length` suffices. -/
def chunksGo {α : Type} (n : Nat) : Nat → List α → List (List α)
  | 0, _ => []
  | _, [] => []
  | fuel + 1, l => l.take n :: chunksGo n fuel (l.drop n)

/-- Rust's `slice::chunks`: split a list into consecutive chunks of at
most `n` elements. -/
def rustChunks {α : Type} (n : Nat) (l : List α) : List (List α) :=
  chunksGo n l.length l

/-- The chunk-size computation of `append_rows` (`src/channel.rs`):
`MAX_REQUEST_SIZE` when the first row is empty/absent, otherwise
`max (MAX_REQUEST_SIZE / (2*row_size+1)) 1`. -/
def chunk_size_for (row_size : Nat) : Nat :=
  if row_size = 0 then MAX_REQUEST_SIZE
  else max (MAX_REQUEST_SIZE / (2 * row_size + 1)) 1

/-- The sequential chunk-dispatch loop of `append_rows`
(`src/channel.rs`): POST each joined chunk via `append_rows_call`,
threading the state and accumulating `bytes_written`; the oracle
`resps` supplies one transport response per POST (exhaustion is a model
artifact yielding a `Reqwest` error no theorem relies on). -/
def dispatch_chunks (st : ChannelState) :
    List String → List (Except Error AppendRowsResponse) → Nat →
    Except Error (ChannelState × Nat) × List RowPost
  | [], _, bytes => (Except.ok (st, bytes), [])
  | _ :: _, [], _ => (Except.error (Error.Reqwest "response oracle exhausted"), [])
  | req :: rest, r :: rs, bytes =>
    let step := append_rows_call st req r
    match step.1 with
    | Except.error e => (Except.error e, step.2)
    | Except.ok st' =>
      let tail := dispatch_chunks st' rest rs (bytes + byteLen req)
      (tail.1, step.2 ++ tail.2)

/-- `StreamingIngestChannel::append_rows` from `src/channel.rs`, over
the already-serialized rows (serde serialization is an external
collaborator): compute the chunk size from the first row's byte length,
pack the rows into newline-joined chunks, and dispatch them in order. -/
def append_rows (st : ChannelState) (serialized_rows : List String)
    (resps : List (Except Error AppendRowsResponse)) :
    Except Error (ChannelState × Nat) × List RowPost :=
  let row_size := (serialized_rows.head?.map byteLen).getD 0
  let chunk_size := chunk_size_for row_size
  let requests := (rustChunks chunk_size serialized_rows).map
    (fun batch => String.intercalate "\n" batch)
  dispatch_chunks st requests resps 0

/-- `StreamingIngestChannel::get_channel_status` from `src/channel.rs`.
The oracle `poll` is the parsed per-channel entry of the
bulk-channel-status response: `none` when the entry is missing or fails
to parse (the source logs and leaves the state unchanged), `some
status` otherwise, in which case `last_committed_offset_token` is
replaced by the parsed server value (defaulting to `"0"`; an
unparseable number panics in the source, modelled as `none` overall). -/
def get_channel_status (st : ChannelState) (poll : Option ChannelStatus) :
    Option ChannelState :=
  match poll with
  | none => some st
  | some status =>
    match parse_u64 (status.last_committed_offset_token.getD "0") with
    | some n => some { st with last_committed_offset_token := n }
    | none => none

/-- Result of `close_with_timeout`: the final outcome, the number of
status polls issued, and whether the DELETE call was issued. -/
structure CloseResult where
  result : Except Error Unit
  polls : Nat
  delete_issued : Bool
deriving DecidableEq

/-- The drain loop of `StreamingIngestChannel::close_with_timeout`
(`src/channel.rs`).  `polls` is the oracle of bulk-status responses,
`elapsed` the oracle of `start.elapsed()` readings (ms) observed after
each poll, `timeout` the close timeout (ms), `deleteResp` what the
final DELETE would return.  While `committed < pushed` the loop sleeps,
polls, and fails with `Timeout` once the elapsed reading reaches the
timeout; on convergence it issues the DELETE.  Oracle exhaustion and
the poll-parse panic are model artifacts returning `none`. -/
def closeGo (timeout : ℚ) (deleteResp : Except Error Unit) :
    ChannelState → List (Option ChannelStatus) → List ℚ → Nat →
    Option CloseResult
  | st, [], _, n =>
    if st.last_committed_offset_token < st.last_pushed_offset_token then none
    else some { result := deleteResp, polls := n, delete_issued := true }
  | st, _ :: _, [], n =>
    if st.last_committed_offset_token < st.last_pushed_offset_token then none
    else some { result := deleteResp, polls := n, delete_issued := true }
  | st, poll :: ps, t :: ts, n =>
    if st.last_committed_offset_token < st.last_pushed_offset_token then
      match get_channel_status st poll with
      | none => none
      | some st' =>
        if timeout ≤ t then
          some { result := Except.error (Error.Timeout timeout)
                 polls := n + 1
                 delete_issued := false }
        else closeGo timeout deleteResp st' ps ts (n + 1)
    else
      some { result := deleteResp, polls := n, delete_issued := true }

/-- `StreamingIngestChannel::close_with_timeout` from
`src/channel.rs`, entering the drain loop with zero polls issued. -/
def close_with_timeout (st : ChannelState)
    (polls : List (Option ChannelStatus)) (elapsed : List ℚ)
    (timeout : ℚ) (deleteResp : Except Error Unit) : Option CloseResult :=
  closeGo timeout deleteResp st polls elapsed 0

/-! ## Token envelope, refresh policy and credential guard
(`src/token/envelope.rs`, `src/token/policy.rs`, `src/token/guard.rs`) -/

/-- `TokenSnapshot` from `src/token/envelope.rs`; timestamps in seconds
since the epoch. -/
structure TokenSnapshot where
  value : String
  issued_at : Nat
  expires_at : Nat
  is_scoped : Bool
deriving DecidableEq

/-- `TokenEnvelope` from `src/token/envelope.rs`. -/
structure TokenEnvelope where
  value : String
  issued_at : Nat
  expires_at : Nat
  is_scoped : Bool
  refresh_in_progress : Bool
deriving DecidableEq

/-- `TokenEnvelope::try_new` from `src/token/envelope.rs`: rejects
envelopes whose expiry is not strictly after issuance or whose TTL is
below 60 seconds. -/
def TokenEnvelope.try_new (value : String) (issued_at expires_at : Nat)
    (is_scoped : Bool) : Except Error TokenEnvelope :=
  if expires_at ≤ issued_at then
    Except.error (Error.Config "Token expires before or at issuance")
  else if expires_at - issued_at < 60 then
    Except.error (Error.Config
      "Token TTL must be at least 60 seconds to support proactive refresh")
  else
    Except.ok { value := value, issued_at := issued_at,
                expires_at := expires_at, is_scoped := is_scoped,
                refresh_in_progress := false }

/-- `TokenEnvelope::from_snapshot` from `src/token/envelope.rs`. -/
def TokenEnvelope.from_snapshot (s : TokenSnapshot) : Except Error TokenEnvelope :=
  TokenEnvelope.try_new s.value s.issued_at s.expires_at s.is_scoped

/-- `TokenEnvelope::to_snapshot` from `src/token/envelope.rs`. -/
def TokenEnvelope.to_snapshot (e : TokenEnvelope) : TokenSnapshot :=
  { value := e.value, issued_at := e.issued_at,
    expires_at := e.expires_at, is_scoped := e.is_scoped }

/-- `TokenEnvelope::remaining` from `src/token/envelope.rs`:
`expires_at.duration_since(now)`, which is `none` when `now` is
strictly past the expiry. -/
def TokenEnvelope.remaining (e : TokenEnvelope) (now : Nat) : Option Nat :=
  if now ≤ e.expires_at then some (e.expires_at - now) else none

/-- `TokenEnvelope::update_from_snapshot` from `src/token/envelope.rs`:
validate via `from_snapshot`, then replace every field and clear
`refresh_in_progress`; on validation failure the envelope is left
untouched (the `?` returns before any mutation). -/
def TokenEnvelope.update_from_snapshot (e : TokenEnvelope) (s : TokenSnapshot) :
    Except Error TokenEnvelope :=
  match TokenEnvelope.from_snapshot s with
  | Except.error err => Except.error err
  | Except.ok updated =>
    Except.ok { e with
                 value := updated.value
                 issued_at := updated.issued_at
                 expires_at := updated.expires_at
                 is_scoped := updated.is_scoped
                 refresh_in_progress := false }

/-- `RefreshPolicy` from `src/token/policy.rs`; durations in seconds. -/
structure RefreshPolicy where
  threshold : Nat
  min_cooldown : Nat
  max_skew : Nat
deriving DecidableEq

/-- `TokenGuard::should_refresh` from `src/token/guard.rs`.  Skips when
a refresh is already in flight; skips when the skew-adjusted remaining
TTL exceeds `threshold + max_skew`; forces a refresh (bypassing the
cooldown) when the token is already expired; otherwise skips when the
previous refresh completed less than `min_cooldown` ago (the
`duration_since` on a clock that jumped backwards errs, in which case
the cooldown does not apply). -/
def should_refresh (policy : RefreshPolicy) (clock_skew : Nat)
    (envelope : TokenEnvelope) (last_refresh : Option Nat) (now : Nat) : Bool :=
  if envelope.refresh_in_progress then
    false
  else
    match envelope.remaining (now + clock_skew) with
    | some rem =>
      if rem > policy.threshold + policy.max_skew then
        false
      else
        match last_refresh with
        | some last =>
          if last ≤ now ∧ now - last < policy.min_cooldown then false else true
        | none => true
    | none => true

/-- The guard state that `TokenGuard` (`src/token/guard.rs`) protects:
the envelope and the time of the last successful refresh. -/
structure GuardState where
  envelope : TokenEnvelope
  last_refresh : Option Nat
deriving DecidableEq

/-- Result of the sequential `ensure_fresh` model: the returned
snapshot or error, the post-state, and how many times the refresh
callback was invoked. -/
structure EnsureResult where
  result : Except Error TokenSnapshot
  state : GuardState
  cb_calls : Nat
deriving DecidableEq

/-- `TokenGuard::ensure_fresh` from `src/token/guard.rs`, modelled
sequentially (a single caller; the single-flight lock is then free).
`now1` is the `SystemTime::now()` of the fast-path check, `now2` the
one of the double-checked re-check after taking the refresh lock,
`refresh_start` the time recorded before invoking the callback, and
`refresh_result` what the refresh callback returns.  Fast path and
re-check return the cached snapshot without invoking the callback;
otherwise the flag is set, the callback runs, and on success the
envelope is replaced wholesale and `last_refresh` becomes
`refresh_start`, while on callback failure the flag is cleared and the
error propagates with the envelope otherwise untouched.  (A callback
that succeeds with an invalid snapshot propagates the validation error
with the flag still set, as in the source.) -/
def ensure_fresh (policy : RefreshPolicy) (clock_skew : Nat)
    (st : GuardState) (force_refresh : Bool) (now1 now2 refresh_start : Nat)
    (refresh_result : Except Error TokenSnapshot) : EnsureResult :=
  if !force_refresh ∧
      should_refresh policy clock_skew st.envelope st.last_refresh now1 = false then
    { result := Except.ok st.envelope.to_snapshot, state := st, cb_calls := 0 }
  else if !force_refresh ∧
      should_refresh policy clock_skew st.envelope st.last_refresh now2 = false then
    { result := Except.ok st.envelope.to_snapshot, state := st, cb_calls := 0 }
  else
    let env1 := { st.envelope with refresh_in_progress := true }
    match refresh_result with
    | Except.ok snapshot =>
      match env1.update_from_snapshot snapshot with
      | Except.ok env2 =>
        { result := Except.ok env2.to_snapshot
          state := { envelope := env2, last_refresh := some refresh_start }
          cb_calls := 1 }
      | Except.error e =>
        { result := Except.error e
          state := { envelope := env1, last_refresh := st.last_refresh }
          cb_calls := 1 }
    | Except.error e =>
      { result := Except.error e
        state := { envelope := { env1 with refresh_in_progress := false }
                   last_refresh := st.last_refresh }
        cb_calls := 1 }

/-! ## Authenticated single-retry dispatch (`src/client/impls.rs`) -/

/-- An HTTP response as seen by `send_with_token_strategy`: status code
and body. -/
structure HttpResponse where
  status : Nat
  body : String
deriving DecidableEq

/-- Result of the dispatch model: the response or error, the number of
credential refreshes performed (the 401 path), and the number of
fixed-delay sleeps performed (the 429 path). -/
structure SendResult where
  result : Except Error HttpResponse
  refreshes : Nat
  sleeps : Nat
deriving DecidableEq

/-- The retry loop of `send_with_token_strategy` from
`src/client/impls.rs`, specialised to the JWT policy installed by
`send_with_jwt` (whose `refresh_token` closure always succeeds and
whose `build_auth_error` produces `Auth ("401 Unauthorized: " ++
body)`).  The transport is the oracle `responses`, one per loop
iteration; oracle exhaustion is a model artifact yielding a `Reqwest`
error no theorem relies on.  A 401 refreshes-and-retries once when
`allow` (the `retry_on_unauthorized` configuration) is set and the
one-shot flag is clear, else fails with the auth error; a 429
sleeps-and-retries once, else fails with `Http(429, body)`; any other
status is returned. -/
def sendGo (allow : Bool) :
    List HttpResponse → Bool → Bool → Nat → Nat → SendResult
  | [], _, _, nRefresh, nSleep =>
    { result := Except.error (Error.Reqwest "response oracle exhausted")
      refreshes := nRefresh, sleeps := nSleep }
  | resp :: rest, unauthorized_retry, rate_limit_retry, nRefresh, nSleep =>
    if resp.status = 401 then
      if allow ∧ !unauthorized_retry then
        sendGo allow rest true rate_limit_retry (nRefresh + 1) nSleep
      else
        { result := Except.error (Error.Auth ("401 Unauthorized: " ++ resp.body))
          refreshes := nRefresh, sleeps := nSleep }
    else if resp.status = 429 then
      if !rate_limit_retry then
        sendGo allow rest unauthorized_retry true nRefresh (nSleep + 1)
      else
        { result := Except.error (Error.Http 429 resp.body)
          refreshes := nRefresh, sleeps := nSleep }
    else
      { result := Except.ok resp, refreshes := nRefresh, sleeps := nSleep }

/-- `send_with_jwt` from `src/client/impls.rs`: enter the dispatch loop
with both one-shot retry flags clear. -/
def send_with_jwt (allow : Bool) (responses : List HttpResponse) : SendResult :=
  sendGo allow responses false false 0 0

/-! ## Concrete instances used by witnesses and counterexamples -/

/-- A freshly opened channel state used in concrete evaluations. -/
def chan0 : ChannelState :=
  { channel_name := "ch", continuation_token := "c0",
    last_committed_offset_token := 0, last_pushed_offset_token := 0 }

/-- A single serialized payload one byte over the 16 MiB limit. -/
def oversized_payload : String :=
  String.mk (List.replicate (MAX_REQUEST_SIZE + 1) 'a')

/-- A retry plan with exactly representable parameters (initial delay
1000 ms, multiplier 2, max delay 100000 ms). -/
def plan0 : RetryPlan :=
  { max_attempts := 3, initial_delay := 1000, multiplier := 2,
    max_delay := 100000, jitter := JitterStrategy.Full }

/-- A refresh policy used in concrete guard evaluations: threshold
120 s, cooldown 30 s, max skew 5 s. -/
def policy0 : RefreshPolicy :=
  { threshold := 120, min_cooldown := 30, max_skew := 5 }

/-- A token envelope issued at 0 expiring at 1000 s. -/
def env0 : TokenEnvelope :=
  { value := "tok", issued_at := 0, expires_at := 1000,
    is_scoped := false, refresh_in_progress := false }

/-! ## Helper lemmas -/

/-- The byte length of a replicated-ASCII string is its character
count. -/
theorem byteLen_replicate (n : Nat) :
    byteLen (String.mk (List.replicate n 'a')) = n := by
  have h1 : Char.utf8Size 'a' = 1 := by decide
  simp [byteLen, List.map_replicate, List.sum_replicate, h1, smul_eq_mul]

/-! ## C3: retriable-error classification -/

/-- C3 counterexample: the coordinator's classifier marks an `Http`
error with status 400 retriable, although the claim requires
4xx-equivalent validation failures to be classified fatal (only
5xx-equivalent statuses retriable). -/
theorem c3_counterexample :
    is_retriable (Error.Http 400 "Bad Request") = true ∧
    spec_retriable (Error.Http 400 "Bad Request") = false := by
  decide

/-- C3 (amended): the classifier marks an error retriable iff it is an
`Http` error of any status, a `Reqwest` transport error, an
`IngestHostDiscovery` failure, or a `Timeout`; every other error
(including `Auth`) is fatal and is returned by the coordinator
immediately after the failing attempt, with no backoff sleep and no
further attempts. -/
theorem c3_retriable_classification :
    (∀ e : Error, is_retriable e = true ↔
      ((∃ s b, e = Error.Http s b) ∨ (∃ m, e = Error.Reqwest m) ∨
       (∃ s b, e = Error.IngestHostDiscovery s b) ∨ (∃ d, e = Error.Timeout d))) ∧
    (∀ (T : Type) (p : RetryPlan) (jitters : Nat → ℚ) (e : Error)
       (rest : List (Except Error T)),
      is_retriable e = false →
      execute p jitters (Except.error e :: rest) = (Except.error e, [])) := by
  constructor
  · intro e
    cases e <;> simp [is_retriable]
  · intro T p jitters e rest h
    simp [execute, executeGo, h]

/-- C3 witness: the fatal `Auth` error is returned at once even though
a successful attempt was still available. -/
theorem c3_retriable_classification_witness :
    is_retriable (Error.Auth "denied") = false ∧
    execute RetryPlan.default_plan (fun _ => (1 : ℚ)/2)
        [Except.error (Error.Auth "denied"), Except.ok (0 : Nat)] =
      (Except.error (Error.Auth "denied"), []) :=
  ⟨by decide,
   c3_retriable_classification.2 Nat RetryPlan.default_plan (fun _ => (1 : ℚ)/2)
     (Error.Auth "denied") [Except.ok 0] (by decide)⟩

/-! ## C5: oversized payloads rejected before any network call -/

/-- C5: a payload whose serialized byte size exceeds `MAX_REQUEST_SIZE`
(16 MiB) makes `append_rows_call` return `DataTooLarge` carrying the
actual and maximum sizes, with an empty network trace (no POST
issued). -/
theorem c5_data_too_large_before_network
    (st : ChannelState) (data : String) (resp : Except Error AppendRowsResponse)
    (h : byteLen data > MAX_REQUEST_SIZE) :
    append_rows_call st data resp =
      (Except.error (Error.DataTooLarge (byteLen data) MAX_REQUEST_SIZE), []) := by
  simp [append_rows_call, h]

/-- C5 witness: a payload of 16 MiB + 1 bytes is rejected without any
POST. -/
theorem c5_data_too_large_before_network_witness :
    byteLen oversized_payload > MAX_REQUEST_SIZE ∧
    append_rows_call chan0 oversized_payload (Except.ok ⟨"c1"⟩) =
      (Except.error (Error.DataTooLarge (byteLen oversized_payload) MAX_REQUEST_SIZE), []) := by
  have hbig : byteLen oversized_payload > MAX_REQUEST_SIZE := by
    simp only [oversized_payload, byteLen_replicate]
    exact Nat.lt_succ_self _
  exact ⟨hbig, c5_data_too_large_before_network chan0 oversized_payload _ hbig⟩

/-! ## C6: single-retry 401/429 policy of authenticated dispatch -/

/-- C6 counterexample: with `retry_on_unauthorized` disabled in the
configuration, the very first 401 fails with `Auth` and performs zero
refreshes and zero retries, although the claim requires every
control-plane dispatch to refresh-and-retry exactly once on a 401. -/
theorem c6_counterexample :
    send_with_jwt false [⟨401, "denied"⟩, ⟨200, "ok"⟩] =
      { result := Except.error (Error.Auth "401 Unauthorized: denied"),
        refreshes := 0, sleeps := 0 } ∧
    (0 : Nat) ≠ 1 := by
  decide

/-- C6 (amended): when `retry_on_unauthorized` is enabled (the
default), a 401 triggers exactly one credential refresh and one retry
and a second 401 fails with `Auth`; a 429 triggers exactly one
fixed-delay sleep and one retry regardless of that flag, and a second
429 fails with `Http` carrying status and body; with the flag
disabled, the first 401 fails immediately with `Auth` and no
refresh. -/
theorem c6_single_retry_behaviour :
    (∀ (b1 b2 : String) (rest : List HttpResponse),
      send_with_jwt true (⟨401, b1⟩ :: ⟨401, b2⟩ :: rest) =
        { result := Except.error (Error.Auth ("401 Unauthorized: " ++ b2)),
          refreshes := 1, sleeps := 0 }) ∧
    (∀ (b1 : String) (resp : HttpResponse) (rest : List HttpResponse),
      resp.status ≠ 401 → resp.status ≠ 429 →
      send_with_jwt true (⟨401, b1⟩ :: resp :: rest) =
        { result := Except.ok resp, refreshes := 1, sleeps := 0 }) ∧
    (∀ (allow : Bool) (b1 b2 : String) (rest : List HttpResponse),
      send_with_jwt allow (⟨429, b1⟩ :: ⟨429, b2⟩ :: rest) =
        { result := Except.error (Error.Http 429 b2), refreshes := 0, sleeps := 1 }) ∧
    (∀ (allow : Bool) (b1 : String) (resp : HttpResponse) (rest : List HttpResponse),
      resp.status ≠ 401 → resp.status ≠ 429 →
      send_with_jwt allow (⟨429, b1⟩ :: resp :: rest) =
        { result := Except.ok resp, refreshes := 0, sleeps := 1 }) ∧
    (∀ (b : String) (rest : List HttpResponse),
      send_with_jwt false (⟨401, b⟩ :: rest) =
        { result := Except.error (Error.Auth ("401 Unauthorized: " ++ b)),
          refreshes := 0, sleeps := 0 }) := by
  refine ⟨?_, ?_, ?_, ?_, ?_⟩
  · intro b1 b2 rest
    simp [send_with_jwt, sendGo]
  · intro b1 resp rest h1 h2
    simp [send_with_jwt, sendGo, h1, h2]
  · intro allow b1 b2 rest
    cases allow <;> simp [send_with_jwt, sendGo]
  · intro allow b1 resp rest h1 h2
    cases allow <;> simp [send_with_jwt, sendGo, h1, h2]
  · intro b rest
    simp [send_with_jwt, sendGo]

/-- C6 witness: one 401 then a 200 succeeds after exactly one
refresh. -/
theorem c6_single_retry_behaviour_witness :
    send_with_jwt true [⟨401, "expired"⟩, ⟨200, "host"⟩] =
      { result := Except.ok ⟨200, "host"⟩, refreshes := 1, sleeps := 0 } :=
  c6_single_retry_behaviour.2.1 "expired" ⟨200, "host"⟩ []
    (by decide) (by decide)

/-! ## C9 / C10: offset bookkeeping -/

/-- `from_response` seeds both offset counters with the same parsed
token, so a fresh channel starts with `committed = pushed`. -/
theorem from_response_committed_eq_pushed
    (resp : OpenChannelResponse) (name : String) (st : ChannelState)
    (h : from_response resp name = some st) :
    st.last_committed_offset_token = st.last_pushed_offset_token := by
  unfold from_response at h
  cases htok : parse_u64 (resp.channel_status.last_committed_offset_token.getD "0") with
  | none => rw [htok] at h; exact absurd h (by simp)
  | some t =>
    rw [htok] at h
    simp only [Option.some.injEq] at h
    subst h
    rfl

/-- A successful `append_rows_call` comes from an `ok` transport
response, advances the pushed offset by exactly one, replaces the
continuation token with the response's, and issues exactly one POST
whose `offsetToken` is the old pushed offset plus one. -/
theorem append_rows_call_ok
    (st : ChannelState) (data : String) (resp : Except Error AppendRowsResponse)
    (st' : ChannelState) (posts : List RowPost)
    (h : append_rows_call st data resp = (Except.ok st', posts)) :
    ∃ r, resp = Except.ok r ∧
      st' = { st with
               last_pushed_offset_token := st.last_pushed_offset_token + 1
               continuation_token := r.next_continuation_token } ∧
      posts = [{ continuationToken := st.continuation_token,
                 offsetToken := st.last_pushed_offset_token + 1, body := data }] := by
  by_cases hs : byteLen data > MAX_REQUEST_SIZE
  · simp [append_rows_call, hs] at h
  · cases resp with
    | error e => simp [append_rows_call, hs] at h
    | ok r =>
      simp only [append_rows_call, if_neg hs, Prod.mk.injEq, Except.ok.injEq] at h
      exact ⟨r, rfl, h.1.symm, h.2.symm⟩

/-- C9: a channel seeded from the open response has
`committed = pushed`, so closing it with zero appends issues no status
poll and immediately issues the DELETE, succeeding when the DELETE
does. -/
theorem c9_open_then_close (resp : OpenChannelResponse) (name : String)
    (st : ChannelState) (h : from_response resp name = some st)
    (polls : List (Option ChannelStatus)) (elapsed : List ℚ) (timeout : ℚ) :
    st.last_committed_offset_token = st.last_pushed_offset_token ∧
    close_with_timeout st polls elapsed timeout (Except.ok ()) =
      some { result := Except.ok (), polls := 0, delete_issued := true } := by
  have heq := from_response_committed_eq_pushed resp name st h
  refine ⟨heq, ?_⟩
  have hnl : ¬ (st.last_committed_offset_token < st.last_pushed_offset_token) := by
    omega
  cases polls <;> cases elapsed <;>
    rw [close_with_timeout, closeGo, if_neg hnl]

/-- C9 witness: open with token "3", close immediately: no poll, one
successful delete. -/
theorem c9_open_then_close_witness :
    (ChannelState.mk "ch" "ctok" 3 3).last_committed_offset_token =
      (ChannelState.mk "ch" "ctok" 3 3).last_pushed_offset_token ∧
    close_with_timeout ⟨"ch", "ctok", 3, 3⟩ [some ⟨some "9"⟩] [0] 300000 (Except.ok ()) =
      some { result := Except.ok (), polls := 0, delete_issued := true } :=
  c9_open_then_close ⟨"ctok", ⟨some "3"⟩⟩ "ch" ⟨"ch", "ctok", 3, 3⟩ (by decide)
    [some ⟨some "9"⟩] [0] 300000

/-- C10 counterexample: starting from a state satisfying
`committed ≤ pushed`, a status poll whose server-reported committed
token exceeds the locally pushed offset leaves the channel with
`committed > pushed`, violating the claimed at-all-times invariant. -/
theorem c10_counterexample :
    chan0.last_committed_offset_token ≤ chan0.last_pushed_offset_token ∧
    get_channel_status chan0 (some ⟨some "5"⟩) =
      some { channel_name := "ch", continuation_token := "c0",
             last_committed_offset_token := 5, last_pushed_offset_token := 0 } ∧
    ¬ ((5 : Nat) ≤ 0) := by
  decide

/-- C10 (amended): `committed ≤ pushed` holds after channel creation
and is preserved by every successful append; a status poll, however,
overwrites `committed` with exactly the server-reported value (no
clamping), so after a poll the invariant holds iff the server reported
a value at most the locally pushed offset. -/
theorem c10_committed_le_pushed_amended :
    (∀ (resp : OpenChannelResponse) (name : String) (st : ChannelState),
      from_response resp name = some st →
      st.last_committed_offset_token ≤ st.last_pushed_offset_token) ∧
    (∀ (st st' : ChannelState) (data : String)
       (resp : Except Error AppendRowsResponse) (posts : List RowPost),
      st.last_committed_offset_token ≤ st.last_pushed_offset_token →
      append_rows_call st data resp = (Except.ok st', posts) →
      st'.last_committed_offset_token ≤ st'.last_pushed_offset_token) ∧
    (∀ (st : ChannelState) (status : ChannelStatus) (n : Nat),
      parse_u64 (status.last_committed_offset_token.getD "0") = some n →
      get_channel_status st (some status) =
        some { st with last_committed_offset_token := n }) := by
  refine ⟨?_, ?_, ?_⟩
  · exact fun resp name st h =>
      le_of_eq (from_response_committed_eq_pushed resp name st h)
  · intro st st' data resp posts hinv hcall
    obtain ⟨r, -, hst', -⟩ := append_rows_call_ok st data resp st' posts hcall
    subst hst'
    exact Nat.le_succ_of_le hinv
  · intro st status n h
    simp [get_channel_status, h]

/-- C10 witness: appending one row to a fresh channel preserves the
invariant. -/
theorem c10_committed_le_pushed_amended_witness :
    (ChannelState.mk "ch" "c1" 0 1).last_committed_offset_token ≤
      (ChannelState.mk "ch" "c1" 0 1).last_pushed_offset_token :=
  c10_committed_le_pushed_amended.2.1 chan0 ⟨"ch", "c1", 0, 1⟩ "x"
    (Except.ok ⟨"c1"⟩) [⟨"c0", 1, "x"⟩] (by decide) (by decide)

/-! ## C1: offset advance per dispatched chunk -/

/-- Offsets issued by the sequential chunk-dispatch loop: on overall
success the pushed offset has advanced by exactly the number of POSTs
(one per chunk), and the i-th POST carried
`offsetToken = initial_pushed + i + 1`. -/
theorem dispatch_chunks_offsets (reqs : List String) :
    ∀ (st : ChannelState) (resps : List (Except Error AppendRowsResponse))
      (bytes : Nat) (st' : ChannelState) (written : Nat) (posts : List RowPost),
    dispatch_chunks st reqs resps bytes = (Except.ok (st', written), posts) →
    st'.last_pushed_offset_token = st.last_pushed_offset_token + posts.length ∧
    (∀ i, i < posts.length →
      (posts.getD i { continuationToken := "", offsetToken := 0, body := "" }).offsetToken =
        st.last_pushed_offset_token + i + 1) := by
  induction reqs with
  | nil =>
    intro st resps bytes st' written posts h
    simp only [dispatch_chunks, Prod.mk.injEq, Except.ok.injEq] at h
    obtain ⟨⟨h1, -⟩, h2⟩ := h
    subst h1
    subst h2
    exact ⟨rfl, fun i hi => absurd hi (by simp)⟩
  | cons req rest ih =>
    intro st resps bytes st' written posts h
    cases resps with
    | nil => simp [dispatch_chunks] at h
    | cons r rs =>
      simp only [dispatch_chunks] at h
      cases hstep : append_rows_call st req r with
      | mk res ps0 =>
        rw [hstep] at h
        dsimp only at h
        cases res with
        | error e => simp at h
        | ok st1 =>
          rw [Prod.mk.injEq] at h
          obtain ⟨h1, h2⟩ := h
          have hd : dispatch_chunks st1 rest rs (bytes + byteLen req) =
              (Except.ok (st', written),
               (dispatch_chunks st1 rest rs (bytes + byteLen req)).2) := by
            rw [← h1]
          obtain ⟨ihA, ihB⟩ := ih st1 rs (bytes + byteLen req) st' written _ hd
          obtain ⟨r0, -, hst1, hps0⟩ := append_rows_call_ok st req r st1 ps0 hstep
          subst hps0
          subst hst1
          rw [← h2]
          constructor
          · dsimp only at ihA
            simp only [List.cons_append, List.nil_append, List.length_cons] at ihA ⊢
            omega
          · intro i hi
            cases i with
            | zero => simp
            | succ i =>
              have hi' : i < (dispatch_chunks
                  { st with
                     last_pushed_offset_token := st.last_pushed_offset_token + 1
                     continuation_token := r0.next_continuation_token }
                  rest rs (bytes + byteLen req)).2.length := by
                simp only [List.cons_append, List.nil_append, List.length_cons] at hi
                omega
              have hoff := ihB i hi'
              dsimp only at hoff
              simp only [List.cons_append, List.nil_append, List.getD_cons_succ]
              rw [hoff]
              omega


/-- C1 counterexample: appending two one-byte rows packs both into a
single chunk (one POST of body "a\nb"); on its success the pushed
offset advances from 0 to 1 — by one per chunk — not by the two rows
the chunk contained, refuting "advances by the number of rows in that
chunk". -/
theorem c1_counterexample :
    append_rows chan0 ["a", "b"] [Except.ok ⟨"c1"⟩] =
      (Except.ok (⟨"ch", "c1", 0, 1⟩, 3), [⟨"c0", 1, "a\nb"⟩]) ∧
    (rustChunks (chunk_size_for (byteLen "a")) ["a", "b"]).map List.length = [2] ∧
    (1 : Nat) ≠ 0 + 2 := by
  refine ⟨by decide, by decide, by decide⟩

/-- C1 (amended): each chunk is POSTed with
`offsetToken = last_pushed_offset_token + 1` and on a successful
response the pushed offset advances by exactly one (per chunk, not per
row) while the continuation token is replaced by the response's; over a
whole `append_rows`, the i-th POST carries
`offsetToken = initial_pushed + i + 1` and the final pushed offset is
the initial one plus the number of dispatched chunks. -/
theorem c1_offset_advance_amended :
    (∀ (st : ChannelState) (data : String) (r : AppendRowsResponse)
       (st' : ChannelState) (posts : List RowPost),
      append_rows_call st data (Except.ok r) = (Except.ok st', posts) →
      st' = { st with
               last_pushed_offset_token := st.last_pushed_offset_token + 1
               continuation_token := r.next_continuation_token } ∧
      posts = [{ continuationToken := st.continuation_token,
                 offsetToken := st.last_pushed_offset_token + 1, body := data }]) ∧
    (∀ (st : ChannelState) (rows : List String)
       (resps : List (Except Error AppendRowsResponse))
       (st' : ChannelState) (written : Nat) (posts : List RowPost),
      append_rows st rows resps = (Except.ok (st', written), posts) →
      st'.last_pushed_offset_token = st.last_pushed_offset_token + posts.length ∧
      (∀ i, i < posts.length →
        (posts.getD i { continuationToken := "", offsetToken := 0, body := "" }).offsetToken =
          st.last_pushed_offset_token + i + 1)) := by
  constructor
  · intro st data r st' posts h
    obtain ⟨r', hr, hst, hp⟩ := append_rows_call_ok st data _ st' posts h
    obtain rfl := Except.ok.inj hr
    exact ⟨hst, hp⟩
  · intro st rows resps st' written posts h
    simp only [append_rows] at h
    exact dispatch_chunks_offsets _ st resps 0 st' written posts h

/-- C1 witness: the two-row single-chunk append advances the pushed
offset by the one dispatched POST, and that POST's offset token is the
initial pushed offset plus one. -/
theorem c1_offset_advance_amended_witness :
    (ChannelState.mk "ch" "c1" 0 1).last_pushed_offset_token =
      chan0.last_pushed_offset_token + [RowPost.mk "c0" 1 "a\nb"].length ∧
    (∀ i, i < [RowPost.mk "c0" 1 "a\nb"].length →
      ([RowPost.mk "c0" 1 "a\nb"].getD i ⟨"", 0, ""⟩).offsetToken =
        chan0.last_pushed_offset_token + i + 1) :=
  c1_offset_advance_amended.2 chan0 ["a", "b"] [Except.ok ⟨"c1"⟩]
    ⟨"ch", "c1", 0, 1⟩ 3 [⟨"c0", 1, "a\nb"⟩] (by decide)

/-! ## C2: backoff delay formula -/

/-- Each backoff sleep recorded by the coordinator loop started at
attempt `a ≥ 1`: the i-th sleep is the capped exponential with exponent
`a + i` (one less than the attempt being scheduled) times the jitter
draw for that attempt. -/
theorem executeGo_sleeps {T : Type} (p : RetryPlan) (jitters : Nat → ℚ)
    (results : List (Except Error T)) :
    ∀ a, 1 ≤ a → ∀ i, i < ((executeGo p jitters a results).2).length →
      ((executeGo p jitters a results).2).getD i 0 =
        min (p.initial_delay * p.multiplier ^ (a + i)) p.max_delay *
          jitters (a + i + 1) := by
  induction results with
  | nil => intro a ha i hi; simp [executeGo] at hi
  | cons r rest ih =>
    intro a ha i hi
    cases r with
    | ok v => simp [executeGo] at hi
    | error e =>
      by_cases hc : p.max_attempts ≤ a ∨ is_retriable e = false
      · simp [executeGo, hc] at hi
      · simp only [executeGo, if_neg hc] at hi ⊢
        cases i with
        | zero =>
          have hgt : ¬ (a + 1 ≤ 1) := by omega
          simp [RetryPlan.delay_for_attempt, hgt]
        | succ i =>
          have hi' : i < ((executeGo p jitters (a + 1) rest).2).length := by
            simpa using hi
          have hrec := ih (a + 1) (by omega) i hi'
          simp only [List.getD_cons_succ]
          rw [show a + (i + 1) = a + 1 + i by omega]
          exact hrec

/-- A success at attempt `n`, starting from attempt `a`, was preceded
by exactly `n - a` backoff sleeps. -/
theorem executeGo_sleep_count {T : Type} (p : RetryPlan) (jitters : Nat → ℚ)
    (results : List (Except Error T)) :
    ∀ a v n, (executeGo p jitters a results).1 = Except.ok (v, n) →
      ((executeGo p jitters a results).2).length + a = n := by
  induction results with
  | nil => intro a v n h; simp [executeGo] at h
  | cons r rest ih =>
    intro a v n h
    cases r with
    | ok w =>
      simp only [executeGo, Except.ok.injEq, Prod.mk.injEq] at h ⊢
      simp [h.2]
    | error e =>
      by_cases hc : p.max_attempts ≤ a ∨ is_retriable e = false
      · simp [executeGo, hc] at h
      · simp only [executeGo, if_neg hc] at h ⊢
        have := ih (a + 1) v n h
        simp only [List.length_cons]
        omega

/-- C2 counterexample: with initial delay 1000 ms, multiplier 2 and a
jitter draw of 1/2 (a legal `Uniform(0,1)` value), the sleep the
coordinator actually performs before attempt 2 is 1000 ms
(exponent n-1 = 1), while the claimed formula with exponent n-2 = 0
yields 500 ms. -/
theorem c2_counterexample :
    (execute plan0 (fun _ => (1 : ℚ)/2)
        [Except.error (Error.Http 500 "boom"), Except.ok (7 : Nat)]).2 = [1000] ∧
    spec_delay_for_attempt plan0 2 ((1 : ℚ)/2) = 500 ∧
    ((0 : ℚ) < 1/2 ∧ (1/2 : ℚ) < 1) ∧
    (1000 : ℚ) ≠ 500 := by
  refine ⟨?_, ?_, ⟨by norm_num, by norm_num⟩, by norm_num⟩
  · norm_num [execute, executeGo, is_retriable, RetryPlan.delay_for_attempt,
      plan0, min_def]
  · norm_num [spec_delay_for_attempt, plan0, min_def]

/-- C2 (amended): the i-th backoff sleep of an execution (the one
scheduled before attempt n = i+2) equals
`min (initial_delay * multiplier^(n-1)) max_delay` times the jitter
draw for that attempt — exponent n-1, not n-2 — and a success at
attempt n was preceded by exactly n-1 sleeps, so attempt 1 has no
added delay. -/
theorem c2_backoff_amended {T : Type} (p : RetryPlan) (jitters : Nat → ℚ)
    (results : List (Except Error T)) :
    (∀ i, i < ((execute p jitters results).2).length →
      ((execute p jitters results).2).getD i 0 =
        min (p.initial_delay * p.multiplier ^ (i + 1)) p.max_delay *
          jitters (i + 2)) ∧
    (∀ v n, (execute p jitters results).1 = Except.ok (v, n) →
      ((execute p jitters results).2).length + 1 = n) := by
  constructor
  · intro i hi
    have h := executeGo_sleeps p jitters results 1 (le_refl 1) i hi
    rw [show (1 : Nat) + i = i + 1 by omega, show i + 1 + 1 = i + 2 by omega] at h
    exact h
  · intro v n h
    exact executeGo_sleep_count p jitters results 1 v n h

/-- C2 witness: the concrete two-attempt execution has its only sleep
equal to the capped exponential with exponent 1, and its success at
attempt 2 was preceded by exactly one sleep. -/
theorem c2_backoff_amended_witness :
    (execute plan0 (fun _ => (1 : ℚ)/2)
        [Except.error (Error.Http 500 "boom"), Except.ok (7 : Nat)]).2.getD 0 0 =
      min (plan0.initial_delay * plan0.multiplier ^ (0 + 1)) plan0.max_delay *
        (fun _ => (1 : ℚ)/2) (0 + 2) ∧
    ((execute plan0 (fun _ => (1 : ℚ)/2)
        [Except.error (Error.Http 500 "boom"), Except.ok (7 : Nat)]).2).length + 1 = 2 :=
  ⟨(c2_backoff_amended plan0 (fun _ => (1 : ℚ)/2)
      [Except.error (Error.Http 500 "boom"), Except.ok (7 : Nat)]).1 0 (by decide),
   (c2_backoff_amended plan0 (fun _ => (1 : ℚ)/2)
      [Except.error (Error.Http 500 "boom"), Except.ok (7 : Nat)]).2 7 2 (by decide)⟩

/-! ## C7 / C8: credential guard refresh behaviour -/

/-- C7: when the slow path is reached (forced, or the staleness check
passes at both reads) and the refresh callback fails, `ensure_fresh`
propagates the callback's error unchanged, clears the
refresh-in-progress flag, and leaves every cached token field and the
last-refresh time untouched. -/
theorem c7_failed_refresh_keeps_stale_token
    (policy : RefreshPolicy) (clock_skew : Nat) (st : GuardState)
    (force : Bool) (now1 now2 refresh_start : Nat) (e : Error)
    (h1 : force = true ∨
      should_refresh policy clock_skew st.envelope st.last_refresh now1 = true)
    (h2 : force = true ∨
      should_refresh policy clock_skew st.envelope st.last_refresh now2 = true) :
    ensure_fresh policy clock_skew st force now1 now2 refresh_start
        (Except.error e) =
      { result := Except.error e,
        state := { envelope := { st.envelope with refresh_in_progress := false },
                   last_refresh := st.last_refresh },
        cb_calls := 1 } := by
  cases force with
  | true => simp [ensure_fresh]
  | false =>
    have hs1 : should_refresh policy clock_skew st.envelope st.last_refresh now1 = true :=
      h1.resolve_left (by simp)
    have hs2 : should_refresh policy clock_skew st.envelope st.last_refresh now2 = true :=
      h2.resolve_left (by simp)
    simp [ensure_fresh, hs1, hs2]

/-- C7 witness: a due refresh whose callback fails with `Auth "boom"`
returns that error, clears the flag, and keeps the stale envelope. -/
theorem c7_failed_refresh_keeps_stale_token_witness :
    ensure_fresh policy0 0 ⟨env0, none⟩ false 950 950 960
        (Except.error (Error.Auth "boom")) =
      { result := Except.error (Error.Auth "boom"),
        state := { envelope := { env0 with refresh_in_progress := false },
                   last_refresh := none },
        cb_calls := 1 } :=
  c7_failed_refresh_keeps_stale_token policy0 0 ⟨env0, none⟩ false 950 950 960
    (Error.Auth "boom") (Or.inr (by decide)) (Or.inr (by decide))

/-- C8: a refresh that is nominally due (skew-adjusted remaining TTL
within `threshold + max_skew`) but falls inside the cooldown window of
the previous successful refresh is skipped — `ensure_fresh` returns the
cached snapshot without invoking the callback — while `force = true`
bypasses every check and invokes the callback exactly once. -/
theorem c8_cooldown_skips_refresh
    (policy : RefreshPolicy) (clock_skew : Nat) (st : GuardState)
    (now1 now2 refresh_start : Nat) (refresh_result : Except Error TokenSnapshot)
    (rem last : Nat)
    (hrem : st.envelope.remaining (now1 + clock_skew) = some rem)
    (hdue : rem ≤ policy.threshold + policy.max_skew)
    (hlast : st.last_refresh = some last)
    (hle : last ≤ now1)
    (hcool : now1 - last < policy.min_cooldown) :
    ensure_fresh policy clock_skew st false now1 now2 refresh_start refresh_result =
      { result := Except.ok st.envelope.to_snapshot, state := st, cb_calls := 0 } ∧
    (ensure_fresh policy clock_skew st true now1 now2 refresh_start
        refresh_result).cb_calls = 1 := by
  constructor
  · have hsr : should_refresh policy clock_skew st.envelope st.last_refresh now1 = false := by
      rw [should_refresh.eq_def]
      by_cases hip : st.envelope.refresh_in_progress
      · simp [hip]
      · have hnr : ¬ (policy.threshold + policy.max_skew < rem) := by omega
        simp [hip, hrem, hlast, hnr, hle, hcool]
    simp [ensure_fresh, hsr]
  · rw [ensure_fresh]
    simp only [Bool.not_true, Bool.false_eq_true, false_and, if_false]
    cases refresh_result with
    | ok snap =>
      cases h : TokenEnvelope.update_from_snapshot
          { st.envelope with refresh_in_progress := true } snap with
      | ok env2 => simp [h]
      | error err => simp [h]
    | error err => simp

/-- C8 witness: a due-but-cooled-down refresh is skipped (callback not
invoked), and forcing it invokes the callback once. -/
theorem c8_cooldown_skips_refresh_witness :
    ensure_fresh policy0 0 ⟨env0, some 940⟩ false 950 950 960
        (Except.ok ⟨"t2", 950, 2000, false⟩) =
      { result := Except.ok env0.to_snapshot,
        state := ⟨env0, some 940⟩, cb_calls := 0 } ∧
    (ensure_fresh policy0 0 ⟨env0, some 940⟩ true 950 950 960
        (Except.ok ⟨"t2", 950, 2000, false⟩)).cb_calls = 1 :=
  c8_cooldown_skips_refresh policy0 0 ⟨env0, some 940⟩ 950 950 960
    (Except.ok ⟨"t2", 950, 2000, false⟩) 50 940
    (by decide) (by decide) rfl (by decide) (by decide)

end SnowpipeStreaming
